import Mathlib

/-!
Shallow embedding of the CryptoMark call-signaling core (`WebSocketManager`
in the backend's websocket service, together with the boundaries of
`RecordingService` and `VoiceDetector`).

The registry `clients` embeds the `Map<string, WebSocketClient>`, the
session table `activeCalls` embeds `Map<string, {callerId; calleeId;
recording}>`, `recordings` embeds `RecordingService.activeRecordings`
(whose per-call `promiseChain` is modelled as the ordered list of chunks
appended to the chain), and `detProcessing` embeds
`VoiceDetector.processingIntervals`.  JavaScript `Map`s are modelled as
association lists with unique keys in insertion order; `Map.set` replaces
in place, `Map.delete` removes, iteration is list order.

Observable behaviour is a list of events: message deliveries over a
client's socket (`socket.send` succeeds only when the client is in the
registry and `readyState === OPEN`) and the invocations of the external
recorder and detector boundaries.
-/

namespace CryptoMark

/-- A `WebSocketClient` record: `{ userId, username, socket }`.  The socket
is represented by whether its channel is currently open (`readyState ===
OPEN`) and a numeric handle distinguishing distinct connections. -/
structure Client where
  userId : String
  username : String
  sockOpen : Bool
  connId : Nat
deriving DecidableEq, Repr

/-- An `activeCalls` entry: `{ callerId, calleeId, recording }`. -/
structure CallInfo where
  callerId : String
  calleeId : String
  recording : Bool
deriving DecidableEq, Repr

/-- A `DetectionResult`: `{ callId, speakerId, timestamp, isAuthentic,
confidence }`.  Routing never reads `timestamp`, `isAuthentic` or
`confidence`; `confidence` is carried as an abstract number. -/
structure DetectionResult where
  callId : String
  speakerId : String
  timestamp : Nat
  isAuthentic : Bool
  confidence : Nat
deriving DecidableEq, Repr

/-- Signaling payloads.  The router treats payloads as opaque data except
that `handleCallRequest` augments the payload with the caller's display
name (`{...payload, callerName}`), rejects carry `{ reason }`, recording
notifications carry `{ callId }`, detection deliveries carry the result,
and presence broadcasts carry the online-user list. -/
inductive Payload where
  | rawData : Nat → Payload
  | withCallerName : Payload → String → Payload
  | reason : String → Payload
  | callRef : String → Payload
  | resultData : DetectionResult → Payload
  | onlineSet : List (String × String) → Payload
deriving DecidableEq, Repr

/-- A `SignalingMessage`: `{ type, payload, from, to, callId? }` (`from`
is rendered as `fromUser`). -/
structure Msg where
  type : String
  payload : Payload
  fromUser : String
  toUser : String
  callId : Option String
deriving DecidableEq, Repr

/-- Observable events: a message delivered on a user's socket, and the
invocations of the recorder boundary (`startRecording`, `writeChunk`,
`stopRecording`) and the detector boundary (`startProcessing`,
`processAudioChunk`, `stopProcessing`). -/
inductive Event where
  | deliver : String → Msg → Event
  | recStart : String → String → Event
  | recWrite : String → Nat → Event
  | recStop : String → Event
  | detStart : String → String → Event
  | detChunk : String → String → Nat → Event
  | detStop : String → Event
deriving DecidableEq, Repr

/-- A `RecordingService.activeRecordings` entry: the analyzed speaker and
the per-call promise chain, modelled as the ordered list of chunks that
have been appended to the chain (`recording.promiseChain =
recording.promiseChain.then(...)` appends one task per `writeChunk`). -/
structure RecEntry where
  speakerId : String
  chain : List Nat
deriving DecidableEq, Repr

/-- The whole mutable state of the core. -/
structure WSState where
  clients : List (String × Client)
  activeCalls : List (String × CallInfo)
  recordings : List (String × RecEntry)
  detProcessing : List (String × String)
deriving DecidableEq, Repr

/-- `Map.get`: first (unique) binding of the key. -/
def aget {α : Type} : List (String × α) → String → Option α
  | [], _ => none
  | (k, v) :: rest, key => if k = key then some v else aget rest key

/-- `Map.set`: replace in place when the key is present, else append. -/
def aset {α : Type} : List (String × α) → String → α → List (String × α)
  | [], key, v => [(key, v)]
  | (k, w) :: rest, key, v =>
      if k = key then (key, v) :: rest else (k, w) :: aset rest key v

/-- `Map.delete`: remove the bindings of the key. -/
def aerase {α : Type} : List (String × α) → String → List (String × α)
  | [], _ => []
  | (k, w) :: rest, key =>
      if k = key then aerase rest key else (k, w) :: aerase rest key

/-- `sendToClient(userId, message)`: looks the user up in the registry and
sends only when the socket's `readyState === OPEN`. -/
def sendToClient (st : WSState) (uid : String) (m : Msg) : List Event :=
  match aget st.clients uid with
  | some c => if c.sockOpen then [Event.deliver uid m] else []
  | none => []

/-- The list `{id, username}` built from all registry values by
`broadcastOnlineUsers`. -/
def onlineList (st : WSState) : List (String × String) :=
  st.clients.map (fun p => (p.2.userId, p.2.username))

/-- `broadcastOnlineUsers()`: each registered client with an open socket
receives an `online-users` message listing everyone but itself. -/
def broadcastOnlineUsers (st : WSState) : List Event :=
  (st.clients.filter (fun p => p.2.sockOpen)).map (fun p =>
    Event.deliver p.2.userId
      { type := "online-users",
        payload := Payload.onlineSet
          ((onlineList st).filter (fun u => !(u.1 = p.2.userId))),
        fromUser := "system", toUser := p.2.userId, callId := none })

/-- `remoteSpeakerId` / `recipientId` resolution:
`call.callerId === uid ? call.calleeId : call.callerId`. -/
def remoteOf (call : CallInfo) (uid : String) : String :=
  if call.callerId = uid then call.calleeId else call.callerId

/-- The scan in `handleAudioData`: first active call (in insertion order)
whose `recording` flag is set and which has the sender as caller or
callee. -/
def findActiveCall (calls : List (String × CallInfo)) (uid : String) :
    Option (String × CallInfo) :=
  calls.find? (fun p =>
    p.2.recording && (p.2.callerId == uid || p.2.calleeId == uid))

/-- `RecordingService.writeChunk(callId, data)` state effect: when a
recording is active for the call, append the chunk to its promise chain;
otherwise only warn. -/
def writeChunkState (st : WSState) (cid : String) (f : Nat) : WSState :=
  match aget st.recordings cid with
  | some r =>
      { st with recordings :=
          (aset st.recordings cid ({ r with chain := r.chain ++ [f] })) }
  | none => st

/-- `handleAudioData(client, audioData)`: find the sender's recording
call; if none, drop the frame; else invoke `writeChunk(callId, data)` on
the recorder and `processAudioChunk(callId, remoteSpeakerId, data)` on
the detector. -/
def handleAudioData (st : WSState) (sender : Client) (f : Nat) :
    WSState × List Event :=
  match findActiveCall st.activeCalls sender.userId with
  | none => (st, [])
  | some (cid, call) =>
      (writeChunkState st cid f,
        [Event.recWrite cid f,
         Event.detChunk cid (remoteOf call sender.userId) f])

/-- `handleCallRequest(client, message)`: reject with "User is offline"
when the target is not registered; when registered but its socket is not
open, drop the stale entry, re-broadcast presence and reject with "User
appears offline"; otherwise create the session under a freshly minted
callId (`call_${Date.now()}_${random}`, here the parameter `fid`) and
forward the request, with `from`, `callId` and `callerName` filled in, to
the target. -/
def handleCallRequest (st : WSState) (sender : Client) (m : Msg)
    (fid : String) : WSState × List Event :=
  match aget st.clients m.toUser with
  | none =>
      (st, sendToClient st sender.userId
        { type := "call-reject", payload := Payload.reason "User is offline",
          fromUser := "system", toUser := sender.userId, callId := none })
  | some target =>
      if target.sockOpen then
        let st' := { st with activeCalls :=
            (aset st.activeCalls fid
              ({ callerId := sender.userId, calleeId := m.toUser,
                 recording := false })) }
        (st', sendToClient st' m.toUser
          { m with fromUser := sender.userId, callId := some fid,
                   payload := Payload.withCallerName m.payload sender.username })
      else
        let st' := { st with clients := aerase st.clients m.toUser }
        (st', broadcastOnlineUsers st' ++ sendToClient st' sender.userId
          { type := "call-reject",
            payload := Payload.reason "User appears offline",
            fromUser := "system", toUser := sender.userId, callId := none })

/-- `handleCallAccept`: forward with `from` rewritten. -/
def handleCallAccept (st : WSState) (sender : Client) (m : Msg) :
    WSState × List Event :=
  (st, sendToClient st m.toUser { m with fromUser := sender.userId })

/-- `handleCallReject`: drop the session when a callId is given, then
forward with `from` rewritten. -/
def handleCallReject (st : WSState) (sender : Client) (m : Msg) :
    WSState × List Event :=
  let st' :=
    match m.callId with
    | some cid => { st with activeCalls := aerase st.activeCalls cid }
    | none => st
  (st', sendToClient st' m.toUser { m with fromUser := sender.userId })

/-- `handleCallEnd`: when a callId is given, stop recorder and detector
if the session was recording, drop the session; then forward with `from`
rewritten. -/
def handleCallEnd (st : WSState) (sender : Client) (m : Msg) :
    WSState × List Event :=
  let r :=
    match m.callId with
    | none => (st, ([] : List Event))
    | some cid =>
        let r0 :=
          match aget st.activeCalls cid with
          | some call =>
              if call.recording then
                ({ st with recordings := aerase st.recordings cid,
                           detProcessing := aerase st.detProcessing cid },
                 [Event.recStop cid, Event.detStop cid])
              else (st, [])
          | none => (st, [])
        ({ r0.1 with activeCalls := aerase r0.1.activeCalls cid }, r0.2)
  (r.1, r.2 ++ sendToClient r.1 m.toUser { m with fromUser := sender.userId })

/-- `forwardSignaling` (offer / answer / ice-candidate): opaque relay with
`from` rewritten. -/
def forwardSignaling (st : WSState) (sender : Client) (m : Msg) :
    WSState × List Event :=
  (st, sendToClient st m.toUser { m with fromUser := sender.userId })

/-- `handleRecordingStart(client, message)`: requires a callId naming an
existing session (else nothing happens); sets `recording := true`, starts
recorder and detector for `(callId, remoteSpeakerId)` and notifies both
participants. -/
def handleRecordingStart (st : WSState) (sender : Client) (m : Msg) :
    WSState × List Event :=
  match m.callId with
  | none => (st, [])
  | some cid =>
      match aget st.activeCalls cid with
      | none => (st, [])
      | some call =>
          let remote := remoteOf call sender.userId
          let st' := { st with
            activeCalls := aset st.activeCalls cid ({ call with recording := true }),
            recordings := aset st.recordings cid ({ speakerId := remote, chain := [] }),
            detProcessing := aset st.detProcessing cid remote }
          (st',
            [Event.recStart cid remote, Event.detStart cid remote]
            ++ sendToClient st' call.callerId
                { type := "recording-start", payload := Payload.callRef cid,
                  fromUser := "system", toUser := call.callerId, callId := some cid }
            ++ sendToClient st' call.calleeId
                { type := "recording-start", payload := Payload.callRef cid,
                  fromUser := "system", toUser := call.calleeId, callId := some cid })

/-- `handleRecordingStop(client, message)`: requires a callId naming an
existing session; sets `recording := false`, stops recorder and detector
and notifies both participants. -/
def handleRecordingStop (st : WSState) (sender : Client) (m : Msg) :
    WSState × List Event :=
  match m.callId with
  | none => (st, [])
  | some cid =>
      match aget st.activeCalls cid with
      | none => (st, [])
      | some call =>
          let st' := { st with
            activeCalls := aset st.activeCalls cid ({ call with recording := false }),
            recordings := aerase st.recordings cid,
            detProcessing := aerase st.detProcessing cid }
          (st',
            [Event.recStop cid, Event.detStop cid]
            ++ sendToClient st' call.callerId
                { type := "recording-stop", payload := Payload.callRef cid,
                  fromUser := "system", toUser := call.callerId, callId := some cid }
            ++ sendToClient st' call.calleeId
                { type := "recording-stop", payload := Payload.callRef cid,
                  fromUser := "system", toUser := call.calleeId, callId := some cid })

/-- `sendDetectionResult(result)`: drop when no session exists for
`result.callId`; otherwise a single best-effort send to
`result.speakerId === call.callerId ? call.calleeId : call.callerId`. -/
def sendDetectionResult (st : WSState) (res : DetectionResult) : List Event :=
  match aget st.activeCalls res.callId with
  | none => []
  | some call =>
      let recipientId := remoteOf call res.speakerId
      sendToClient st recipientId
        { type := "detection-result", payload := Payload.resultData res,
          fromUser := "system", toUser := recipientId, callId := some res.callId }

/-- `handleMessage` dispatch on `message.type` (binary frames go to
`handleAudioData` instead; unknown types are logged and dropped). -/
def handleMessage (st : WSState) (sender : Client) (m : Msg)
    (fid : String) : WSState × List Event :=
  if m.type = "call-request" then handleCallRequest st sender m fid
  else if m.type = "call-accept" then handleCallAccept st sender m
  else if m.type = "call-reject" then handleCallReject st sender m
  else if m.type = "call-end" then handleCallEnd st sender m
  else if m.type = "offer" ∨ m.type = "answer" ∨ m.type = "ice-candidate" then
    forwardSignaling st sender m
  else if m.type = "recording-start" then handleRecordingStart st sender m
  else if m.type = "recording-stop" then handleRecordingStop st sender m
  else (st, [])

/-- The connection handler after successful token verification: store the
client under its userId (replacing any previous entry) and broadcast
presence. -/
def onConnection (st : WSState) (uid uname : String) (cid : Nat) :
    WSState × List Event :=
  let st' := { st with clients :=
      (aset st.clients uid
        ({ userId := uid, username := uname, sockOpen := true, connId := cid })) }
  (st', broadcastOnlineUsers st')

/-- The socket `close` handler of a connection authenticated as `uid`:
`clients.delete(payload.userId)` (unconditionally, whichever connection
currently occupies the entry) and broadcast presence. -/
def onSocketClose (st : WSState) (uid : String) : WSState × List Event :=
  let st' := { st with clients := aerase st.clients uid }
  (st', broadcastOnlineUsers st')

/-- Environment transition: the underlying channel of `uid`'s registered
connection stops being open (`readyState` leaves `OPEN`) without the
`close` handler having run yet. -/
def setChannelClosed (st : WSState) (uid : String) : WSState :=
  { st with clients := st.clients.map (fun p =>
      if p.1 = uid then (p.1, { p.2 with sockOpen := false }) else p) }

/-- `isUserOnline(userId)`: `this.clients.has(userId)`. -/
def isUserOnline (st : WSState) (uid : String) : Bool :=
  (aget st.clients uid).isSome

/-- Inbound events driving the core: a connection authenticating, a
channel silently closing, a close handler firing, a structured envelope
(with the sender's captured client record and the callId the server would
mint), a binary audio frame, and a detection result from the detector. -/
inductive InEvent where
  | connect : String → String → Nat → InEvent
  | channelDown : String → InEvent
  | closeEvt : String → InEvent
  | envelope : Client → Msg → String → InEvent
  | audio : Client → Nat → InEvent
  | detection : DetectionResult → InEvent
deriving DecidableEq, Repr

/-- One step of the core. -/
def step (st : WSState) : InEvent → WSState × List Event
  | InEvent.connect uid uname cid => onConnection st uid uname cid
  | InEvent.channelDown uid => (setChannelClosed st uid, [])
  | InEvent.closeEvt uid => onSocketClose st uid
  | InEvent.envelope sender m fid => handleMessage st sender m fid
  | InEvent.audio sender f => handleAudioData st sender f
  | InEvent.detection res => (st, sendDetectionResult st res)

/-- Run a sequence of inbound events, accumulating the event trace. -/
def run (st : WSState) : List InEvent → WSState × List Event
  | [] => (st, [])
  | e :: rest =>
      let r1 := step st e
      let r2 := run r1.1 rest
      (r2.1, r1.2 ++ r2.2)

/-- The state before any connection. -/
def initState : WSState := { clients := [], activeCalls := [], recordings := [], detProcessing := [] }

/-- Submit a sequence of binary audio frames from one sender. -/
def submitFrames (st : WSState) (sender : Client) : List Nat → WSState × List Event
  | [] => (st, [])
  | f :: rest =>
      let r1 := handleAudioData st sender f
      let r2 := submitFrames r1.1 sender rest
      (r2.1, r1.2 ++ r2.2)

/-- Whether an event is a delivery to `uid`. -/
def deliversTo (e : Event) (uid : String) : Bool :=
  match e with
  | Event.deliver u _ => u == uid
  | _ => false

/-- Number of deliveries of messages of type `ty` to `uid` in a trace. -/
def deliverCount (evts : List Event) (uid ty : String) : Nat :=
  (evts.filter (fun e =>
    match e with
    | Event.deliver u m => u == uid && m.type == ty
    | _ => false)).length

/-- Fixture: a connected client "A". -/
def clientA : Client := { userId := "A", username := "alice", sockOpen := true, connId := 1 }

/-- Fixture: a connected client "B". -/
def clientB : Client := { userId := "B", username := "bob", sockOpen := true, connId := 2 }

/-- Fixture: both "A" and "B" online, call "X" between them with recording
active, recorder and detector running for ("X", "B"). -/
def stAB : WSState :=
  { clients := [("A", clientA), ("B", clientB)],
    activeCalls := [("X", { callerId := "A", calleeId := "B", recording := true })],
    recordings := [("X", { speakerId := "B", chain := [] })],
    detProcessing := [("X", "B")] }

/-- Fixture: both "A" and "B" online, no call yet. -/
def stAB0 : WSState :=
  { clients := [("A", clientA), ("B", clientB)],
    activeCalls := [], recordings := [], detProcessing := [] }

/-- Fixture: only "A" online. -/
def stA : WSState :=
  { clients := [("A", clientA)],
    activeCalls := [], recordings := [], detProcessing := [] }

/-- Fixture: a third connected client "C". -/
def clientC : Client := { userId := "C", username := "carol", sockOpen := true, connId := 3 }

/-- Fixture: the recording call "X" between "A" and "B". -/
def callX : CallInfo := { callerId := "A", calleeId := "B", recording := true }

/-- Fixture: the recorder entry of call "X" with an empty chain. -/
def recX : RecEntry := { speakerId := "B", chain := [] }

/-- Fixture: "A" open, "B" registered but with a closed channel. -/
def stABstale : WSState :=
  { clients := [("A", clientA),
                ("B", { userId := "B", username := "bob", sockOpen := false, connId := 2 })],
    activeCalls := [], recordings := [], detProcessing := [] }

/-- Fixture: "A" and "B" online, call "X" between them, not recording. -/
def stABcall : WSState :=
  { clients := [("A", clientA), ("B", clientB)],
    activeCalls := [("X", { callerId := "A", calleeId := "B", recording := false })],
    recordings := [], detProcessing := [] }

/-- Fixture: a call-request envelope from "A" to "B" without a callId. -/
def mReqW : Msg :=
  { type := "call-request", payload := Payload.rawData 0, fromUser := "A",
    toUser := "B", callId := none }

/-- Fixture: a recording-start envelope naming call "X". -/
def mRecStart : Msg :=
  { type := "recording-start", payload := Payload.rawData 0, fromUser := "A",
    toUser := "B", callId := some "X" }

/-- Fixture: a detection result for call "X" analyzing speaker "B". -/
def resW : DetectionResult :=
  { callId := "X", speakerId := "B", timestamp := 0, isAuthentic := true,
    confidence := 90 }

theorem aget_aset_self {α : Type} (l : List (String × α)) (k : String) (v : α) :
    aget (aset l k v) k = some v := by
  induction l with
  | nil => simp [aset, aget]
  | cons p rest ih =>
      by_cases h : p.1 = k
      · simp [aset, h, aget]
      · simp [aset, h, aget, ih]

theorem aget_aset_ne {α : Type} (l : List (String × α)) (k k' : String) (v : α)
    (h : k' ≠ k) : aget (aset l k v) k' = aget l k' := by
  induction l with
  | nil => simp [aset, aget, Ne.symm h]
  | cons p rest ih =>
      by_cases hp : p.1 = k
      · simp [aset, aget, hp, Ne.symm h]
      · simp [aset, hp, aget, ih]

theorem length_aset_of_fresh {α : Type} (l : List (String × α)) (k : String) (v : α)
    (h : aget l k = none) : (aset l k v).length = l.length + 1 := by
  induction l with
  | nil => simp [aset]
  | cons p rest ih =>
      by_cases hp : p.1 = k
      · simp [aget, hp] at h
      · simp [aget, hp] at h
        simp [aset, hp, ih h]

theorem aget_aerase_self {α : Type} (l : List (String × α)) (k : String) :
    aget (aerase l k) k = none := by
  induction l with
  | nil => simp [aerase, aget]
  | cons p rest ih =>
      by_cases hp : p.1 = k
      · simp [aerase, hp, ih]
      · simp [aerase, hp, aget, ih]

theorem aget_aerase_ne {α : Type} (l : List (String × α)) (k k' : String)
    (h : k' ≠ k) : aget (aerase l k) k' = aget l k' := by
  induction l with
  | nil => simp [aerase]
  | cons p rest ih =>
      by_cases hp : p.1 = k
      · simp [aerase, aget, hp, ih, Ne.symm h]
      · simp [aerase, hp, aget, ih]

theorem mem_aerase {α : Type} {l : List (String × α)} {k : String}
    {p : String × α} (h : p ∈ aerase l k) : p ∈ l ∧ p.1 ≠ k := by
  induction l with
  | nil => simp [aerase] at h
  | cons q rest ih =>
      by_cases hq : q.1 = k
      · simp [aerase, hq] at h
        rcases ih h with ⟨h1, h2⟩
        exact ⟨List.mem_cons_of_mem _ h1, h2⟩
      · simp [aerase, hq] at h
        rcases h with h | h
        · subst h
          exact ⟨List.mem_cons_self _ _, hq⟩
        · rcases ih h with ⟨h1, h2⟩
          exact ⟨List.mem_cons_of_mem _ h1, h2⟩

theorem sendToClient_length (st : WSState) (uid : String) (m : Msg) :
    (sendToClient st uid m).length ≤ 1 := by
  unfold sendToClient
  cases aget st.clients uid with
  | none => simp
  | some c => by_cases h : c.sockOpen <;> simp [h]

theorem mem_sendToClient {st : WSState} {uid : String} {m : Msg} {e : Event}
    (h : e ∈ sendToClient st uid m) : e = Event.deliver uid m := by
  unfold sendToClient at h
  cases hc : aget st.clients uid with
  | none => simp [hc] at h
  | some c =>
      rw [hc] at h
      by_cases ho : c.sockOpen <;> simp [ho] at h
      exact h

theorem mem_broadcast {st : WSState} {e : Event}
    (h : e ∈ broadcastOnlineUsers st) :
    ∃ p ∈ st.clients, p.2.sockOpen = true ∧
      e = Event.deliver p.2.userId
        ({ type := "online-users",
           payload := Payload.onlineSet
             ((onlineList st).filter (fun u => !(u.1 = p.2.userId))),
           fromUser := "system", toUser := p.2.userId, callId := none }) := by
  unfold broadcastOnlineUsers at h
  rcases List.mem_map.mp h with ⟨p, hp, he⟩
  rcases List.mem_filter.mp hp with ⟨hmem, hopen⟩
  exact ⟨p, hmem, by simpa using hopen, he.symm⟩

theorem deliverCount_append (a b : List Event) (uid ty : String) :
    deliverCount (a ++ b) uid ty = deliverCount a uid ty + deliverCount b uid ty := by
  simp [deliverCount, List.filter_append]

theorem deliverCount_broadcast (st : WSState) (uid ty : String)
    (h : ty ≠ "online-users") :
    deliverCount (broadcastOnlineUsers st) uid ty = 0 := by
  simp only [deliverCount, List.length_eq_zero]
  rw [List.filter_eq_nil_iff]
  intro e he
  rcases mem_broadcast he with ⟨p, -, -, rfl⟩
  simp [Ne.symm h]

/-- C3: after identity "A" registers a second connection (connId 2, which
supersedes connId 1 in the registry), the close event of the superseded
connection 1 deletes the registry entry outright — the newer connection
is NOT retained as the registry entry, contradicting the claimed
supersede invariant.  The close handler runs
`this.clients.delete(payload.userId)` unconditionally. -/
theorem c3_stale_close_removes_newer_connection :
    aget ((run initState [InEvent.connect "A" "alice" 1,
        InEvent.connect "A" "alice" 2]).1).clients "A"
      = some ({ userId := "A", username := "alice", sockOpen := true, connId := 2 }) ∧
    aget ((run initState [InEvent.connect "A" "alice" 1,
        InEvent.connect "A" "alice" 2, InEvent.closeEvt "A"]).1).clients "A"
      = none := by
  constructor <;> decide

/-- C8: a call-request whose target is the sender itself creates a
CallSession with callerId = calleeId, violating the claimed invariant
callerId ≠ calleeId — `handleCallRequest` never compares the target
against the sender. -/
theorem c8_self_call_creates_degenerate_session :
    aget ((run initState [InEvent.connect "A" "alice" 1,
        InEvent.envelope ({ userId := "A", username := "alice", sockOpen := true, connId := 1 })
          ({ type := "call-request", payload := Payload.rawData 0, fromUser := "A",
             toUser := "A", callId := none }) "cid1"]).1).activeCalls "cid1"
      = some ({ callerId := "A", calleeId := "A", recording := false }) := by
  decide

/-- C1 counterexample: a call-request whose envelope carries callId "X"
(target "B" online and open) does NOT create a session keyed "X": the
router unconditionally mints a fresh server-side callId and keys the
session by it, ignoring the callId in the envelope. -/
theorem c1_counterexample_envelope_callId_ignored :
    aget ((handleCallRequest stAB0 clientA
        ({ type := "call-request", payload := Payload.rawData 0, fromUser := "A",
           toUser := "B", callId := some "X" }) "call_fresh1").1).activeCalls "X"
      = none ∧
    aget ((handleCallRequest stAB0 clientA
        ({ type := "call-request", payload := Payload.rawData 0, fromUser := "A",
           toUser := "B", callId := some "X" }) "call_fresh1").1).activeCalls "call_fresh1"
      = some ({ callerId := "A", calleeId := "B", recording := false }) := by
  constructor <;> decide

/-- C2 counterexample: the call-reject sent for an unregistered target
carries the reason string "User is offline", not the claim's literal
reason "offline". -/
theorem c2_counterexample_reason_string :
    (handleCallRequest stA clientA
        ({ type := "call-request", payload := Payload.rawData 0, fromUser := "A",
           toUser := "B", callId := none }) "cid9").2
      = [Event.deliver "A"
          ({ type := "call-reject", payload := Payload.reason "User is offline",
             fromUser := "system", toUser := "A", callId := none })] ∧
    Payload.reason "User is offline" ≠ Payload.reason "offline" := by
  constructor <;> decide

/-- C9 counterexample: when "A"'s underlying channel has closed but the
close handler has not yet run, the registry still holds the entry and
`isUserOnline("A")` returns true although the channel is not writable —
`isUserOnline` is `this.clients.has(userId)` and never inspects the
socket. -/
theorem c9_counterexample_channel_not_checked :
    isUserOnline ((run initState [InEvent.connect "A" "alice" 1,
        InEvent.channelDown "A"]).1) "A" = true ∧
    aget ((run initState [InEvent.connect "A" "alice" 1,
        InEvent.channelDown "A"]).1).clients "A"
      = some ({ userId := "A", username := "alice", sockOpen := false, connId := 1 }) := by
  constructor <;> decide

/-- C9 (amended): `isUserOnline(id)` is true iff a registry entry exists
for `id` — channel writability is NOT consulted; it is true after a
registration of `id` and false after removal. -/
theorem c9_isUserOnline_is_registry_presence (st : WSState) (uid uname : String)
    (cid : Nat) :
    isUserOnline (onConnection st uid uname cid).1 uid = true ∧
    isUserOnline (onSocketClose st uid).1 uid = false ∧
    (isUserOnline st uid = true ↔ (aget st.clients uid).isSome = true) := by
  refine ⟨?_, ?_, Iff.rfl⟩
  · simp [onConnection, isUserOnline, aget_aset_self]
  · simp [onSocketClose, isUserOnline, aget_aerase_self]

/-- C4: a binary frame whose sender has no recording session (as caller
or callee) is dropped with no state change, no recorder or detector
invocation and no error; otherwise exactly one `writeChunk` keyed by the
(first) matching session's callId and one `processAudioChunk` keyed by
that callId and the counterpart of the sender are invoked. -/
theorem c4_audio_dispatch (st : WSState) (sender : Client) (f : Nat) :
    (findActiveCall st.activeCalls sender.userId = none →
      handleAudioData st sender f = (st, [])) ∧
    (∀ cid call, findActiveCall st.activeCalls sender.userId = some (cid, call) →
      call.callerId ≠ call.calleeId →
      (handleAudioData st sender f).2
          = [Event.recWrite cid f,
             Event.detChunk cid (remoteOf call sender.userId) f] ∧
      remoteOf call sender.userId ≠ sender.userId ∧
      (sender.userId = call.callerId → remoteOf call sender.userId = call.calleeId) ∧
      (sender.userId = call.calleeId → remoteOf call sender.userId = call.callerId)) := by
  constructor
  · intro h
    simp [handleAudioData, h]
  · intro cid call hf hne
    have hpred := List.find?_some hf
    simp only [Bool.and_eq_true, Bool.or_eq_true, beq_iff_eq] at hpred
    refine ⟨by simp [handleAudioData, hf], ?_, ?_, ?_⟩
    · rcases hpred.2 with hc | hc
      · rw [remoteOf, if_pos hc, ← hc]
        exact Ne.symm hne
      · by_cases hcc : call.callerId = sender.userId
        · exact absurd (hcc.trans hc.symm) hne
        · rw [remoteOf, if_neg hcc]
          exact hcc
    · intro h
      rw [remoteOf, if_pos h.symm]
    · intro h
      rw [remoteOf, if_neg (fun hcc => hne (hcc.trans h))]

/-- C5: a detection result with no session for its callId is dropped;
with a session, it is a single best-effort send to the counterpart of
`result.speakerId` (the participant who is not the analyzed speaker) and
is never delivered to the analyzed speaker. -/
theorem c5_detection_fanout (st : WSState) (res : DetectionResult) :
    (aget st.activeCalls res.callId = none → sendDetectionResult st res = []) ∧
    (∀ call, aget st.activeCalls res.callId = some call →
      call.callerId ≠ call.calleeId →
      sendDetectionResult st res
          = sendToClient st (remoteOf call res.speakerId)
              ({ type := "detection-result", payload := Payload.resultData res,
                 fromUser := "system", toUser := remoteOf call res.speakerId,
                 callId := some res.callId }) ∧
      remoteOf call res.speakerId ≠ res.speakerId ∧
      (res.speakerId = call.callerId → remoteOf call res.speakerId = call.calleeId) ∧
      (res.speakerId = call.calleeId → remoteOf call res.speakerId = call.callerId) ∧
      (sendDetectionResult st res).length ≤ 1 ∧
      (∀ e ∈ sendDetectionResult st res, deliversTo e res.speakerId = false)) := by
  constructor
  · intro h
    simp [sendDetectionResult, h]
  · intro call hcall hne
    have hrs : remoteOf call res.speakerId ≠ res.speakerId := by
      by_cases hc : call.callerId = res.speakerId
      · rw [remoteOf, if_pos hc, ← hc]
        exact Ne.symm hne
      · rw [remoteOf, if_neg hc]
        exact hc
    refine ⟨by simp [sendDetectionResult, hcall], hrs, ?_, ?_, ?_, ?_⟩
    · intro h
      rw [remoteOf, if_pos h.symm]
    · intro h
      rw [remoteOf, if_neg (fun hcc => hne (hcc.trans h))]
    · rw [show sendDetectionResult st res
          = sendToClient st (remoteOf call res.speakerId)
              ({ type := "detection-result", payload := Payload.resultData res,
                 fromUser := "system", toUser := remoteOf call res.speakerId,
                 callId := some res.callId }) from by simp [sendDetectionResult, hcall]]
      exact sendToClient_length _ _ _
    · intro e he
      rw [show sendDetectionResult st res
          = sendToClient st (remoteOf call res.speakerId)
              ({ type := "detection-result", payload := Payload.resultData res,
                 fromUser := "system", toUser := remoteOf call res.speakerId,
                 callId := some res.callId }) from by simp [sendDetectionResult, hcall]] at he
      rw [mem_sendToClient he]
      simp [deliversTo, hrs]

/-- C10: `handleRecordingStart`/`handleRecordingStop` never check that
the sender participates in the named session: for any sender and any
existing session, recording-start sets `recording := true` and starts
recorder and detector, recording-stop sets `recording := false` and
stops them; and when the sender is neither callerId nor calleeId, the
analyzed-speaker identity passed to `startRecording`/`startProcessing`
resolves to the session's callerId. -/
theorem c10_recording_no_participation_check (st : WSState) (sender : Client)
    (m : Msg) (cid : String) (call : CallInfo)
    (hcid : m.callId = some cid)
    (hcall : aget st.activeCalls cid = some call)
    (h1 : sender.userId ≠ call.callerId)
    (h2 : sender.userId ≠ call.calleeId) :
    remoteOf call sender.userId = call.callerId ∧
    aget (handleRecordingStart st sender m).1.activeCalls cid
        = some ({ call with recording := true }) ∧
    Event.recStart cid call.callerId ∈ (handleRecordingStart st sender m).2 ∧
    Event.detStart cid call.callerId ∈ (handleRecordingStart st sender m).2 ∧
    aget (handleRecordingStop st sender m).1.activeCalls cid
        = some ({ call with recording := false }) ∧
    Event.recStop cid ∈ (handleRecordingStop st sender m).2 ∧
    Event.detStop cid ∈ (handleRecordingStop st sender m).2 := by
  have hrem : remoteOf call sender.userId = call.callerId := by
    rw [remoteOf, if_neg (Ne.symm h1)]
  refine ⟨hrem, ?_, ?_, ?_, ?_, ?_, ?_⟩
  · simp [handleRecordingStart, hcid, hcall, aget_aset_self]
  · simp [handleRecordingStart, hcid, hcall, hrem]
  · simp [handleRecordingStart, hcid, hcall, hrem]
  · simp [handleRecordingStop, hcid, hcall, aget_aset_self]
  · simp [handleRecordingStop, hcid, hcall]
  · simp [handleRecordingStop, hcid, hcall]

/-- C1 (amended): for a call-request whose target is online with an open
channel, the router always mints a fresh server-side callId (ignoring any
callId carried by the envelope), creates exactly one CallSession keyed by
the minted callId with callerId = sender and calleeId = target, and
forwards the request to the target with the minted callId and the
caller's display name added to the payload. -/
theorem c1_call_request_creates_session (st : WSState) (sender : Client)
    (m : Msg) (fid : String) (target : Client)
    (htgt : aget st.clients m.toUser = some target)
    (hopen : target.sockOpen = true)
    (hfresh : aget st.activeCalls fid = none) :
    (handleCallRequest st sender m fid).1.clients = st.clients ∧
    aget (handleCallRequest st sender m fid).1.activeCalls fid
        = some ({ callerId := sender.userId, calleeId := m.toUser,
                  recording := false }) ∧
    (handleCallRequest st sender m fid).1.activeCalls.length
        = st.activeCalls.length + 1 ∧
    (∀ k, k ≠ fid →
      aget (handleCallRequest st sender m fid).1.activeCalls k
        = aget st.activeCalls k) ∧
    (handleCallRequest st sender m fid).2
        = [Event.deliver m.toUser
            ({ m with fromUser := sender.userId, callId := some fid,
                      payload := Payload.withCallerName m.payload sender.username })] := by
  refine ⟨?_, ?_, ?_, ?_, ?_⟩
  · simp [handleCallRequest, htgt, hopen]
  · simp [handleCallRequest, htgt, hopen, aget_aset_self]
  · simp [handleCallRequest, htgt, hopen, length_aset_of_fresh _ _ _ hfresh]
  · intro k hk
    simp [handleCallRequest, htgt, hopen, aget_aset_ne _ _ _ _ hk]
  · simp [handleCallRequest, htgt, hopen, sendToClient]

/-- C2 (amended): a call-request to a target with no registry entry
yields exactly one call-reject to the sender with reason "User is
offline", creates no CallSession and forwards nothing; a call-request to
a target whose registered channel is not open removes the stale entry
and yields exactly one call-reject to the sender with reason "User
appears offline", creates no CallSession, and nothing is delivered to
the target. -/
theorem c2_call_request_offline (st : WSState) (sender : Client) (m : Msg)
    (fid : String) (sc : Client)
    (hwf : ∀ p ∈ st.clients, p.2.userId = p.1)
    (hs : aget st.clients sender.userId = some sc)
    (hso : sc.sockOpen = true) :
    (aget st.clients m.toUser = none →
      handleCallRequest st sender m fid
          = (st, [Event.deliver sender.userId
              ({ type := "call-reject",
                 payload := Payload.reason "User is offline",
                 fromUser := "system", toUser := sender.userId,
                 callId := none })]) ∧
      sender.userId ≠ m.toUser) ∧
    (∀ target : Client, aget st.clients m.toUser = some target →
      target.sockOpen = false →
      (handleCallRequest st sender m fid).1
          = { st with clients := aerase st.clients m.toUser } ∧
      deliverCount (handleCallRequest st sender m fid).2 sender.userId
          "call-reject" = 1 ∧
      (handleCallRequest st sender m fid).2
          = broadcastOnlineUsers ({ st with clients := aerase st.clients m.toUser })
            ++ [Event.deliver sender.userId
                ({ type := "call-reject",
                   payload := Payload.reason "User appears offline",
                   fromUser := "system", toUser := sender.userId,
                   callId := none })] ∧
      (∀ e ∈ (handleCallRequest st sender m fid).2,
        deliversTo e m.toUser = false)) := by
  constructor
  · intro htgt
    have hne : sender.userId ≠ m.toUser := by
      intro hh
      rw [hh, htgt] at hs
      cases hs
    exact ⟨by simp [handleCallRequest, htgt, sendToClient, hs, hso], hne⟩
  · intro target htgt htso
    have hne : sender.userId ≠ m.toUser := by
      intro hh
      rw [hh, htgt] at hs
      injection hs with hs'
      simp [hs', hso] at htso
    have hsend : sendToClient ({ st with clients := aerase st.clients m.toUser })
        sender.userId
        ({ type := "call-reject",
           payload := Payload.reason "User appears offline",
           fromUser := "system", toUser := sender.userId, callId := none })
        = [Event.deliver sender.userId
            ({ type := "call-reject",
               payload := Payload.reason "User appears offline",
               fromUser := "system", toUser := sender.userId, callId := none })] := by
      simp [sendToClient, aget_aerase_ne _ _ _ hne, hs, hso]
    have hevts : (handleCallRequest st sender m fid).2
        = broadcastOnlineUsers ({ st with clients := aerase st.clients m.toUser })
          ++ [Event.deliver sender.userId
              ({ type := "call-reject",
                 payload := Payload.reason "User appears offline",
                 fromUser := "system", toUser := sender.userId,
                 callId := none })] := by
      simp only [handleCallRequest, htgt, htso, Bool.false_eq_true, if_false]
      rw [hsend]
    refine ⟨by simp [handleCallRequest, htgt, htso], ?_, hevts, ?_⟩
    · rw [hevts, deliverCount_append,
        deliverCount_broadcast _ _ _ (by decide)]
      simp [deliverCount]
    · intro e he
      rw [hevts] at he
      rcases List.mem_append.mp he with hb | hb
      · rcases mem_broadcast hb with ⟨p, hp, -, rfl⟩
        rcases mem_aerase hp with ⟨hpm, hpk⟩
        have : p.2.userId = p.1 := hwf p hpm
        simp [deliversTo, this, hpk]
      · rcases List.mem_singleton.mp hb with rfl
        simp [deliversTo, hne]

/-- C6: a recording-start naming an existing session with distinct
participants, from a participant, while both participants' connections
are open, sets the session's `recording` flag, starts recorder and
detector for (callId, remote-of-sender), and delivers a recording-start
notification to callerId and to calleeId exactly once each; when the
named session does not exist, nothing happens at all. -/
theorem c6_recording_start (st : WSState) (sender : Client) (m : Msg) :
    (∀ cid, m.callId = some cid → aget st.activeCalls cid = none →
      handleRecordingStart st sender m = (st, [])) ∧
    (∀ cid call cc ce, m.callId = some cid →
      aget st.activeCalls cid = some call →
      call.callerId ≠ call.calleeId →
      (sender.userId = call.callerId ∨ sender.userId = call.calleeId) →
      aget st.clients call.callerId = some cc → cc.sockOpen = true →
      aget st.clients call.calleeId = some ce → ce.sockOpen = true →
      aget (handleRecordingStart st sender m).1.activeCalls cid
          = some ({ call with recording := true }) ∧
      (handleRecordingStart st sender m).2
          = [Event.recStart cid (remoteOf call sender.userId),
             Event.detStart cid (remoteOf call sender.userId),
             Event.deliver call.callerId
               ({ type := "recording-start", payload := Payload.callRef cid,
                  fromUser := "system", toUser := call.callerId,
                  callId := some cid }),
             Event.deliver call.calleeId
               ({ type := "recording-start", payload := Payload.callRef cid,
                  fromUser := "system", toUser := call.calleeId,
                  callId := some cid })] ∧
      remoteOf call sender.userId ≠ sender.userId ∧
      deliverCount (handleRecordingStart st sender m).2 call.callerId
          "recording-start" = 1 ∧
      deliverCount (handleRecordingStart st sender m).2 call.calleeId
          "recording-start" = 1) := by
  constructor
  · intro cid hcid hnone
    simp [handleRecordingStart, hcid, hnone]
  · intro cid call cc ce hcid hcall hne hpart hcc hcco hce hceo
    have hrs : remoteOf call sender.userId ≠ sender.userId := by
      rcases hpart with hc | hc
      · rw [remoteOf, if_pos hc.symm, hc]
        exact Ne.symm hne
      · by_cases hcc' : call.callerId = sender.userId
        · exact absurd (hcc'.trans hc) hne
        · rw [remoteOf, if_neg hcc']
          exact hcc'
    have hevts : (handleRecordingStart st sender m).2
        = [Event.recStart cid (remoteOf call sender.userId),
           Event.detStart cid (remoteOf call sender.userId),
           Event.deliver call.callerId
             ({ type := "recording-start", payload := Payload.callRef cid,
                fromUser := "system", toUser := call.callerId,
                callId := some cid }),
           Event.deliver call.calleeId
             ({ type := "recording-start", payload := Payload.callRef cid,
                fromUser := "system", toUser := call.calleeId,
                callId := some cid })] := by
      simp [handleRecordingStart, hcid, hcall, sendToClient, hcc, hcco, hce, hceo]
    refine ⟨by simp [handleRecordingStart, hcid, hcall, aget_aset_self],
      hevts, hrs, ?_, ?_⟩
    · rw [hevts]
      simp [deliverCount, Ne.symm hne]
    · rw [hevts]
      simp [deliverCount, hne]

/-- C7: audio frames submitted by one sender for the same callId while a
recording is active reach the recorder's per-call promise chain and the
detector in exactly the submission order: over any frame sequence, the
trace of `writeChunk` / `processAudioChunk` invocations lists the frames
in order, and the per-call chain extends by the frames in order. -/
theorem c7_per_call_order (st : WSState) (sender : Client) (frames : List Nat)
    (cid : String) (call : CallInfo) (rec : RecEntry)
    (hfind : findActiveCall st.activeCalls sender.userId = some (cid, call))
    (hrec : aget st.recordings cid = some rec) :
    aget (submitFrames st sender frames).1.recordings cid
        = some ({ rec with chain := rec.chain ++ frames }) ∧
    (submitFrames st sender frames).2
        = frames.flatMap (fun f =>
            [Event.recWrite cid f,
             Event.detChunk cid (remoteOf call sender.userId) f]) := by
  induction frames generalizing st rec with
  | nil =>
      simp [submitFrames, hrec]
  | cons f rest ih =>
      have hstep : handleAudioData st sender f
          = ({ st with recordings :=
                (aset st.recordings cid ({ rec with chain := rec.chain ++ [f] })) },
             [Event.recWrite cid f,
              Event.detChunk cid (remoteOf call sender.userId) f]) := by
        simp [handleAudioData, hfind, writeChunkState, hrec]
      have hfind' : findActiveCall
          ({ st with recordings :=
              (aset st.recordings cid ({ rec with chain := rec.chain ++ [f] })) } :
            WSState).activeCalls sender.userId = some (cid, call) := hfind
      have hrec' : aget
          ({ st with recordings :=
              (aset st.recordings cid ({ rec with chain := rec.chain ++ [f] })) } :
            WSState).recordings cid
          = some ({ rec with chain := rec.chain ++ [f] }) := aget_aset_self _ _ _
      rcases ih _ _ hfind' hrec' with ⟨h1, h2⟩
      constructor
      · rw [submitFrames, hstep]
        simpa [List.append_assoc] using h1
      · rw [submitFrames, hstep]
        simp [h2]

/-- Witness for C1 (amended): "B" is online with an open channel,
"call_1" is fresh, and the request from "A" creates the session keyed
"call_1" and forwards it to "B" with callerName "alice". -/
theorem c1_witness :
    aget stAB0.clients mReqW.toUser = some clientB ∧
    clientB.sockOpen = true ∧
    aget stAB0.activeCalls "call_1" = none ∧
    aget (handleCallRequest stAB0 clientA mReqW "call_1").1.activeCalls "call_1"
        = some ({ callerId := clientA.userId, calleeId := mReqW.toUser,
                  recording := false }) ∧
    (handleCallRequest stAB0 clientA mReqW "call_1").2
        = [Event.deliver mReqW.toUser
            ({ mReqW with
                fromUser := clientA.userId,
                callId := some "call_1",
                payload := Payload.withCallerName mReqW.payload clientA.username })] :=
  have h := c1_call_request_creates_session stAB0 clientA mReqW "call_1" clientB
    (by decide) (by decide) (by decide)
  ⟨by decide, by decide, by decide, h.2.1, h.2.2.2.2⟩

/-- Witness for C2 (amended): an unregistered target yields exactly the
"User is offline" reject; a registered-but-closed target is dropped from
the registry and yields exactly one "User appears offline" reject. -/
theorem c2_witness :
    aget stA.clients mReqW.toUser = none ∧
    (handleCallRequest stA clientA mReqW "cid2"
        = (stA, [Event.deliver clientA.userId
            ({ type := "call-reject", payload := Payload.reason "User is offline",
               fromUser := "system", toUser := clientA.userId,
               callId := none })]) ∧
      clientA.userId ≠ mReqW.toUser) ∧
    aget stABstale.clients mReqW.toUser
        = some ({ userId := "B", username := "bob", sockOpen := false, connId := 2 }) ∧
    ((handleCallRequest stABstale clientA mReqW "cid3").1
        = { stABstale with clients := aerase stABstale.clients mReqW.toUser } ∧
      deliverCount (handleCallRequest stABstale clientA mReqW "cid3").2
          clientA.userId "call-reject" = 1) :=
  have h1 := (c2_call_request_offline stA clientA mReqW "cid2" clientA
    (by decide) (by decide) (by decide)).1 (by decide)
  have h2 := (c2_call_request_offline stABstale clientA mReqW "cid3" clientA
    (by decide) (by decide) (by decide)).2
    ({ userId := "B", username := "bob", sockOpen := false, connId := 2 })
    (by decide) (by decide)
  ⟨by decide, h1, by decide, h2.1, h2.2.1⟩

/-- Witness for C4: with the recording call "X" between "A" and "B", a
frame from "A" produces exactly one `writeChunk` keyed "X" and one
`processAudioChunk` keyed ("X", counterpart of "A"). -/
theorem c4_witness :
    findActiveCall stAB.activeCalls clientA.userId = some ("X", callX) ∧
    callX.callerId ≠ callX.calleeId ∧
    ((handleAudioData stAB clientA 7).2
        = [Event.recWrite "X" 7,
           Event.detChunk "X" (remoteOf callX clientA.userId) 7] ∧
      remoteOf callX clientA.userId ≠ clientA.userId) :=
  have h := (c4_audio_dispatch stAB clientA 7).2 "X" callX (by decide) (by decide)
  ⟨by decide, by decide, h.1, h.2.1⟩

/-- Witness for C5: with session "X" live, the result analyzing "B" is
fanned out as a single send to the counterpart of "B" and never to "B". -/
theorem c5_witness :
    aget stAB.activeCalls resW.callId = some callX ∧
    callX.callerId ≠ callX.calleeId ∧
    (sendDetectionResult stAB resW
        = sendToClient stAB (remoteOf callX resW.speakerId)
            ({ type := "detection-result", payload := Payload.resultData resW,
               fromUser := "system", toUser := remoteOf callX resW.speakerId,
               callId := some resW.callId }) ∧
      remoteOf callX resW.speakerId ≠ resW.speakerId) :=
  have h := (c5_detection_fanout stAB resW).2 callX (by decide) (by decide)
  ⟨by decide, by decide, h.1, h.2.1⟩

/-- Witness for C6: recording-start on the existing session "X" (from
participant "A", both participants open) sets the flag and notifies "A"
and "B" exactly once each; on a state without session "X" it does
nothing. -/
theorem c6_witness :
    aget stABcall.activeCalls "X"
        = some ({ callerId := "A", calleeId := "B", recording := false }) ∧
    (aget (handleRecordingStart stABcall clientA mRecStart).1.activeCalls "X"
        = some ({ callerId := "A", calleeId := "B", recording := true }) ∧
      deliverCount (handleRecordingStart stABcall clientA mRecStart).2 "A"
          "recording-start" = 1 ∧
      deliverCount (handleRecordingStart stABcall clientA mRecStart).2 "B"
          "recording-start" = 1) ∧
    aget stAB0.activeCalls "X" = none ∧
    handleRecordingStart stAB0 clientA mRecStart = (stAB0, []) :=
  have h := (c6_recording_start stABcall clientA mRecStart).2 "X"
    ({ callerId := "A", calleeId := "B", recording := false }) clientA clientB
    (by decide) (by decide) (by decide) (Or.inl (by decide))
    (by decide) (by decide) (by decide) (by decide)
  have h0 := (c6_recording_start stAB0 clientA mRecStart).1 "X"
    (by decide) (by decide)
  ⟨by decide, ⟨h.1, h.2.2.2.1, h.2.2.2.2⟩, by decide, h0⟩

/-- Witness for C7: submitting frames [7, 8, 9] from "A" on the recording
call "X" yields the recorder/detector invocation trace in exactly that
order and extends the per-call chain to [7, 8, 9]. -/
theorem c7_witness :
    findActiveCall stAB.activeCalls clientA.userId = some ("X", callX) ∧
    aget stAB.recordings "X" = some recX ∧
    (aget (submitFrames stAB clientA [7, 8, 9]).1.recordings "X"
        = some ({ recX with chain := recX.chain ++ [7, 8, 9] }) ∧
      (submitFrames stAB clientA [7, 8, 9]).2
        = [7, 8, 9].flatMap (fun f =>
            [Event.recWrite "X" f,
             Event.detChunk "X" (remoteOf callX clientA.userId) f])) :=
  have h := c7_per_call_order stAB clientA [7, 8, 9] "X" callX recX
    (by decide) (by decide)
  ⟨by decide, by decide, h.1, h.2⟩

/-- Witness for C10: client "C", not a participant of session "X",
toggles its recording on and off, and the analyzed-speaker identity
handed to the recorder and detector resolves to the callerId "A". -/
theorem c10_witness :
    aget stABcall.activeCalls "X"
        = some ({ callerId := "A", calleeId := "B", recording := false }) ∧
    clientC.userId ≠ "A" ∧ clientC.userId ≠ "B" ∧
    (remoteOf ({ callerId := "A", calleeId := "B", recording := false })
        clientC.userId = "A" ∧
      aget (handleRecordingStart stABcall clientC mRecStart).1.activeCalls "X"
        = some ({ callerId := "A", calleeId := "B", recording := true }) ∧
      Event.recStart "X" "A" ∈ (handleRecordingStart stABcall clientC mRecStart).2 ∧
      Event.detStart "X" "A" ∈ (handleRecordingStart stABcall clientC mRecStart).2 ∧
      aget (handleRecordingStop stABcall clientC mRecStart).1.activeCalls "X"
        = some ({ callerId := "A", calleeId := "B", recording := false }) ∧
      Event.recStop "X" ∈ (handleRecordingStop stABcall clientC mRecStart).2 ∧
      Event.detStop "X" ∈ (handleRecordingStop stABcall clientC mRecStart).2) :=
  have h := c10_recording_no_participation_check stABcall clientC mRecStart "X"
    ({ callerId := "A", calleeId := "B", recording := false })
    (by decide) (by decide) (by decide) (by decide)
  ⟨by decide, by decide, by decide, h⟩

end CryptoMark
